import Mathlib

/-
  Shallow embedding of src/src/main/io/vtx_tramp.c (TRAMP VTX controller).

  The C module's global state is gathered into one structure `TrampState`;
  each C function becomes a Lean function on that state.  Frames written to
  the serial port are returned as explicit outputs (lists of 16 byte values).
  Machine integers are modelled as Nat with explicit `% 2^w` at the points
  where the C code truncates (uint8_t / uint16_t / uint32_t boundaries).
  Response codes and command codes are the ASCII values used by the C code:
  114 = r, 118 = v, 115 = s, 70 = F, 80 = P, 73 = I; the frame marker is 15.
-/

namespace Tramp

/-- trampStatus_e from vtx_tramp.c. -/
inductive TrampStatus where
  | badDevice
  | offline
  | online
  | setFreqPw
  | checkFreqPw
deriving DecidableEq, Repr

/-- trampReceiveState_e from vtx_tramp.c. -/
inductive ReceiveState where
  | waitLen
  | waitCode
  | data
deriving DecidableEq, Repr

/-- The file-scope mutable state of vtx_tramp.c: trampStatus, the capability
limits, the observed device state, the desired configuration, the frame
receiver sub-state, the 16-byte response buffer and the static
lastQueryTimeUs of trampProcess. -/
structure TrampState where
  status : TrampStatus
  rfFreqMin : Nat
  rfFreqMax : Nat
  rfPowerMax : Nat
  curFreq : Nat
  curBand : Nat
  curChan : Nat
  curPower : Nat
  curConfigPower : Nat
  curPitmode : Nat
  confFreq : Nat
  confPower : Nat
  receiveState : ReceiveState
  receivePos : Nat
  respBuffer : List Nat
  lastQueryTimeUs : Nat
deriving DecidableEq, Repr

/-- The initial values of the globals of vtx_tramp.c. -/
def trampInitialState : TrampState :=
  { status := TrampStatus.offline
    rfFreqMin := 0
    rfFreqMax := 0
    rfPowerMax := 0
    curFreq := 0
    curBand := 0
    curChan := 0
    curPower := 0
    curConfigPower := 0
    curPitmode := 0
    confFreq := 0
    confPower := 0
    receiveState := ReceiveState.waitLen
    receivePos := 0
    respBuffer := List.replicate 16 0
    lastQueryTimeUs := 0 }

/-- trampChecksum: 8-bit sum of bytes 1..13 of the buffer. -/
def trampChecksum (trampBuf : List Nat) : Nat :=
  (((trampBuf.drop 1).take 13).sum) % 256

/-- trampCmdU16: build the 16-byte request frame.  The buffer is zeroed,
byte 0 is 15, byte 1 the command code (uint8_t), bytes 2-3 the little-endian
16-bit parameter, byte 14 the checksum of the buffer at that point, byte 15
stays 0.  The frame is returned instead of being written to the serial port. -/
def trampCmdU16 (cmd param : Nat) : List Nat :=
  let buf1 :=
    ((((List.replicate 16 0).set 0 15).set 1 (cmd % 256)).set 2
      (param % 256)).set 3 ((param / 256) % 256)
  buf1.set 14 (trampChecksum buf1)

/-- Validity of a frame per the check in trampReceive and the protocol
layout: byte 14 equals the checksum of bytes 1..13 and byte 15 is 0. -/
def isValidFrame (buf : List Nat) : Bool :=
  decide (buf.getD 14 0 = trampChecksum buf) && decide (buf.getD 15 0 = 0)

/-- trampSetFreq: record the desired frequency (uint16_t argument). -/
def trampSetFreq (s : TrampState) (freq : Nat) : TrampState :=
  { s with confFreq := freq % 65536 }

/-- trampSendFreq: emit a set-frequency command, code 70, with the uint16_t
frequency as parameter.  No state is touched. -/
def trampSendFreq (s : TrampState) (freq : Nat) : TrampState × List (List Nat) :=
  (s, [trampCmdU16 70 (freq % 65536)])

/-- Modelled from the spec: the band/channel-to-frequency table
vtx58FreqTable lives outside this source file ("a static band/channel-to-frequency
lookup table shared with other device variants", treated as an injected
capability).  The table is a parameter; the access is a bounds-checked read
over the 5 x 8 shape so an out-of-range row or column index is `none`. -/
def vtx58FreqTableGet (tbl : Nat → Nat → Nat) (r c : Nat) : Option Nat :=
  if r < 5 ∧ c < 8 then some (tbl r c) else none

/-- trampSetBandChan: index the external table at row band-1 and column
chan-1 (uint8_t arithmetic, so band = 0 gives row index 255) with no bounds
check in the C code; the unchecked access is modelled as the Option-valued
table read. -/
def trampSetBandChan (tbl : Nat → Nat → Nat) (s : TrampState) (band chan : Nat) :
    Option TrampState :=
  match vtx58FreqTableGet tbl ((band + 255) % 256) ((chan + 255) % 256) with
  | some f => some (trampSetFreq s f)
  | none => none

/-- trampSetRFPower: record the desired power level (uint16_t argument). -/
def trampSetRFPower (s : TrampState) (level : Nat) : TrampState :=
  { s with confPower := level % 65536 }

/-- trampSendRFPower: emit a set-power command, code 80.  No state is touched. -/
def trampSendRFPower (s : TrampState) (level : Nat) : TrampState × List (List Nat) :=
  (s, [trampCmdU16 80 (level % 65536)])

/-- trampCommitChanges: false if status is not online; otherwise move the
status to setFreqPw and return true. -/
def trampCommitChanges (s : TrampState) : Bool × TrampState :=
  if s.status ≠ TrampStatus.online then (false, s)
  else (true, { s with status := TrampStatus.setFreqPw })

/-- trampSetPitmode: emit an immediate pitmode command, code 73, with
parameter 0 when the uint8_t argument is nonzero and 1 when it is zero.
No state is touched. -/
def trampSetPitmode (s : TrampState) (onoff : Nat) : TrampState × List (List Nat) :=
  (s, [trampCmdU16 73 (if onoff % 256 ≠ 0 then 0 else 1)])

/-- trampHandleResponse: decode the completed response frame in respBuffer.
Code 114 with nonzero min-freq field updates the capability limits; code 118
with nonzero freq field updates the observed state, deriving band/channel
through the external vtx58_Freq2Bandchan capability `f2bc`; any other case
leaves the state alone and returns 0. -/
def trampHandleResponse (f2bc : Nat → Nat × Nat) (s : TrampState) :
    TrampState × Nat :=
  let respCode := s.respBuffer.getD 1 0
  if respCode = 114 then
    let minFreq := (s.respBuffer.getD 2 0 ||| (s.respBuffer.getD 3 0 <<< 8)) % 65536
    if minFreq ≠ 0 then
      ({ s with
          rfFreqMin := minFreq
          rfFreqMax := (s.respBuffer.getD 4 0 ||| (s.respBuffer.getD 5 0 <<< 8)) % 4294967296
          rfPowerMax := (s.respBuffer.getD 6 0 ||| (s.respBuffer.getD 7 0 <<< 8)) % 4294967296 },
        114)
    else (s, 0)
  else if respCode = 118 then
    let freq := (s.respBuffer.getD 2 0 ||| (s.respBuffer.getD 3 0 <<< 8)) % 65536
    if freq ≠ 0 then
      ({ s with
          curFreq := freq
          curConfigPower := (s.respBuffer.getD 4 0 ||| (s.respBuffer.getD 5 0 <<< 8)) % 65536
          curPitmode := s.respBuffer.getD 7 0 % 256
          curPower := (s.respBuffer.getD 8 0 ||| (s.respBuffer.getD 9 0 <<< 8)) % 65536
          curBand := (f2bc freq).1 % 256
          curChan := (f2bc freq).2 % 256 },
        118)
    else (s, 0)
  else (s, 0)

/-- trampResetReceiver: back to waitLen with position 0. -/
def trampResetReceiver (s : TrampState) : TrampState :=
  { s with receiveState := ReceiveState.waitLen, receivePos := 0 }

/-- trampIsValidResponseCode: 114 (r), 118 (v) or 115 (s). -/
def trampIsValidResponseCode (code : Nat) : Bool :=
  code == 114 || code == 118 || code == 115

/-- trampReceive's while loop over the available bytes.  Each byte is stored
at the current position (post-incrementing it) and the receiver state machine
advances; when a 16-byte candidate passes the checksum and terminator check
the C code returns trampHandleResponse() from inside the loop, so the
still-unread bytes are returned as the third component. -/
def trampReceiveLoop (f2bc : Nat → Nat × Nat) :
    List Nat → TrampState → TrampState × Nat × List Nat
  | [], s => (s, 0, [])
  | b :: rest, s =>
    let c := b % 256
    let s1 : TrampState :=
      { s with respBuffer := s.respBuffer.set s.receivePos c
               receivePos := s.receivePos + 1 }
    match s.receiveState with
    | ReceiveState.waitLen =>
      if c = 15 then
        trampReceiveLoop f2bc rest { s1 with receiveState := ReceiveState.waitCode }
      else
        trampReceiveLoop f2bc rest { s1 with receivePos := 0 }
    | ReceiveState.waitCode =>
      if trampIsValidResponseCode c then
        trampReceiveLoop f2bc rest { s1 with receiveState := ReceiveState.data }
      else
        trampReceiveLoop f2bc rest (trampResetReceiver s1)
    | ReceiveState.data =>
      if s1.receivePos = 16 then
        let cksum := trampChecksum s1.respBuffer
        let s2 := trampResetReceiver s1
        if s1.respBuffer.getD 14 0 = cksum ∧ s1.respBuffer.getD 15 0 = 0 then
          let r := trampHandleResponse f2bc s2
          (r.1, r.2, rest)
        else trampReceiveLoop f2bc rest s2
      else trampReceiveLoop f2bc rest s1

/-- trampReceive: consume the bytes waiting on the serial port; returns the
completed response code (or 0) and the bytes the C loop left unread. -/
def trampReceive (f2bc : Nat → Nat × Nat) (s : TrampState) (avail : List Nat) :
    TrampState × Nat × List Nat :=
  trampReceiveLoop f2bc avail s

/-- trampQuery: reset the receiver, then emit the command with parameter 0.
trampQueryR, trampQueryV and trampQueryS call this with 114, 118 and 115. -/
def trampQuery (s : TrampState) (cmd : Nat) : TrampState × List (List Nat) :=
  (trampResetReceiver s, [trampCmdU16 cmd 0])

/-- Modelled from the spec: cmp32 comes from common/utils.h, which is not in
the source tree; the spec requires "wraparound-safe unsigned-difference
arithmetic against a monotonic clock", i.e. the signed 32-bit value of the
unsigned 32-bit difference a - b. -/
def cmp32 (a b : Nat) : Int :=
  let d := (a + (4294967296 - b % 4294967296)) % 4294967296
  if d < 2147483648 then (d : Int) else (d : Int) - 4294967296

/-- trampProcess: one tick.  Returns the new state, the frames emitted during
the tick and the bytes the receive loop left unread. -/
def trampProcess (f2bc : Nat → Nat × Nat) (s : TrampState) (t : Nat)
    (avail : List Nat) : TrampState × List (List Nat) × List Nat :=
  if s.status = TrampStatus.badDevice then (s, [], avail)
  else
    let r := trampReceiveLoop f2bc avail s
    let s1 := r.1
    let replyCode := r.2.1
    let rem := r.2.2
    let s2 : TrampState :=
      if replyCode = 114 then
        if s1.status = TrampStatus.badDevice ∨ s1.status = TrampStatus.offline then
          { s1 with status := TrampStatus.online }
        else s1
      else if replyCode = 118 then
        if s1.status = TrampStatus.checkFreqPw then
          { s1 with status := TrampStatus.setFreqPw }
        else s1
      else s1
    if s2.status = TrampStatus.offline ∨ s2.status = TrampStatus.online then
      if cmp32 t s2.lastQueryTimeUs > 1000000 then
        let q :=
          if s2.status = TrampStatus.offline then trampQuery s2 114
          else trampQuery s2 118
        ({ q.1 with lastQueryTimeUs := t % 4294967296 }, q.2, rem)
      else (s2, [], rem)
    else if s2.status = TrampStatus.setFreqPw then
      if s2.confFreq ≠ s2.curFreq then
        let q := trampSendFreq s2 s2.confFreq
        ({ q.1 with status := TrampStatus.checkFreqPw
                    lastQueryTimeUs := (t + 300000) % 4294967296 }, q.2, rem)
      else if s2.confPower ≠ s2.curConfigPower then
        let q := trampSendRFPower s2 s2.confPower
        ({ q.1 with status := TrampStatus.checkFreqPw
                    lastQueryTimeUs := (t + 300000) % 4294967296 }, q.2, rem)
      else ({ s2 with status := TrampStatus.online }, [], rem)
    else if s2.status = TrampStatus.checkFreqPw then
      if cmp32 t s2.lastQueryTimeUs > 200000 then
        let q := trampQuery s2 118
        ({ q.1 with lastQueryTimeUs := t % 4294967296 }, q.2, rem)
      else (s2, [], rem)
    else (s2, [], rem)

/-- A receiver-state invariant of vtx_tramp.c: the position counter always
matches the receive sub-state, staying within the 16-byte response buffer. -/
def recvInv (s : TrampState) : Prop :=
  (s.receiveState = ReceiveState.waitLen ∧ s.receivePos = 0) ∨
  (s.receiveState = ReceiveState.waitCode ∧ s.receivePos = 1) ∨
  (s.receiveState = ReceiveState.data ∧ 2 ≤ s.receivePos ∧ s.receivePos ≤ 15)

/-- A trivial stand-in for the external vtx58_Freq2Bandchan capability, used
to run the model on concrete inputs. -/
def f2bcZero : Nat → Nat × Nat := fun _ => (0, 0)

/-- A trivial stand-in for the external vtx58FreqTable capability. -/
def tblConst : Nat → Nat → Nat := fun _ _ => 5800

/-- A structurally valid response frame with code 115 (s): marker, code,
twelve zero bytes, checksum 115, terminator 0. -/
def exFrameS : List Nat := [15, 115, 0, 0, 0, 0, 0, 0, 0, 0, 0, 0, 0, 0, 115, 0]

/-- A concrete controller state in setFreqPw with a pending frequency change
(observed 5800, desired 5880). -/
def exSetState : TrampState :=
  { trampInitialState with
      status := TrampStatus.setFreqPw
      curFreq := 5800
      confFreq := 5880 }

/-- A concrete state whose receiver is in the middle of a partial frame. -/
def exMidFrame : TrampState :=
  { trampInitialState with receiveState := ReceiveState.data, receivePos := 5 }

/-- A concrete state whose response buffer holds a validated code-118 (v)
frame with a zero frequency field. -/
def exVZero : TrampState :=
  { trampInitialState with
      respBuffer := [15, 118, 0, 0, 0, 0, 0, 0, 0, 0, 0, 0, 0, 0, 118, 0] }

/-- A concrete state whose response buffer holds a validated code-114 (r)
frame with a zero min-freq field. -/
def exRZero : TrampState :=
  { trampInitialState with
      respBuffer := [15, 114, 0, 0, 0, 0, 0, 0, 0, 0, 0, 0, 0, 0, 114, 0] }

/- ---------------------------------------------------------------------- -/
/- Helper lemmas                                                           -/
/- ---------------------------------------------------------------------- -/

theorem trampHandleResponse_receiver (f2bc : Nat → Nat × Nat) (s : TrampState) :
    (trampHandleResponse f2bc s).1.receiveState = s.receiveState ∧
    (trampHandleResponse f2bc s).1.receivePos = s.receivePos := by
  simp only [trampHandleResponse]
  repeat' split
  all_goals exact ⟨rfl, rfl⟩

theorem cmp32_eval_ge (a b : Nat) (h1 : b ≤ a) (h2 : a < b + 2147483648)
    (h3 : a < 4294967296) : cmp32 a b = (a : Int) - (b : Int) := by
  unfold cmp32
  have hb : b % 4294967296 = b := Nat.mod_eq_of_lt (lt_of_le_of_lt h1 h3)
  rw [hb]
  have hd : (a + (4294967296 - b)) % 4294967296 = a - b := by omega
  rw [hd]
  rw [if_pos (by omega : a - b < 2147483648)]
  omega

theorem cmp32_eval_lt (a b : Nat) (h1 : a < b) (h2 : b ≤ a + 2147483648)
    (h3 : b < 4294967296) : cmp32 a b = (a : Int) - (b : Int) := by
  unfold cmp32
  have hb : b % 4294967296 = b := Nat.mod_eq_of_lt h3
  rw [hb]
  have hd : (a + (4294967296 - b)) % 4294967296 = a + 4294967296 - b := by omega
  rw [hd]
  rw [if_neg (by omega : ¬(a + 4294967296 - b < 2147483648))]
  omega

theorem trampProcess_set_branch (f2bc : Nat → Nat × Nat) (s : TrampState)
    (t : Nat) (h : s.status = TrampStatus.setFreqPw) :
    trampProcess f2bc s t [] =
      (if s.confFreq ≠ s.curFreq then
        ({ s with status := TrampStatus.checkFreqPw
                  lastQueryTimeUs := (t + 300000) % 4294967296 },
         [trampCmdU16 70 (s.confFreq % 65536)], [])
      else if s.confPower ≠ s.curConfigPower then
        ({ s with status := TrampStatus.checkFreqPw
                  lastQueryTimeUs := (t + 300000) % 4294967296 },
         [trampCmdU16 80 (s.confPower % 65536)], [])
      else ({ s with status := TrampStatus.online }, [], [])) := by
  simp [trampProcess, trampReceiveLoop, h, trampSendFreq, trampSendRFPower]

theorem trampProcess_check_branch (f2bc : Nat → Nat × Nat) (s : TrampState)
    (t : Nat) (h : s.status = TrampStatus.checkFreqPw) :
    trampProcess f2bc s t [] =
      (if cmp32 t s.lastQueryTimeUs > 200000 then
        ({ trampResetReceiver s with lastQueryTimeUs := t % 4294967296 },
         [trampCmdU16 118 0], [])
      else (s, [], [])) := by
  simp [trampProcess, trampReceiveLoop, h, trampQuery]

/- ---------------------------------------------------------------------- -/
/- Claim theorems                                                          -/
/- ---------------------------------------------------------------------- -/

/-- C5: trampCommitChanges returns true and moves the status to setFreqPw
exactly when the status is online; for any other status it returns false and
leaves the whole state unchanged. -/
theorem trampCommitChanges_spec (s : TrampState) :
    ((trampCommitChanges s).1 = true ↔ s.status = TrampStatus.online) ∧
    (trampCommitChanges s).2 =
      (if s.status = TrampStatus.online then
        { s with status := TrampStatus.setFreqPw }
      else s) := by
  unfold trampCommitChanges
  by_cases h : s.status = TrampStatus.online <;> simp [h]

/-- C6: every frame built by trampCmdU16 satisfies the frame-validity
predicate: byte 14 is the checksum of bytes 1..13 and byte 15 is 0. -/
theorem trampCmdU16_isValidFrame (cmd param : Nat) :
    isValidFrame (trampCmdU16 cmd param) = true := by
  simp [isValidFrame, trampCmdU16, trampChecksum, List.replicate]

/-- C9: trampSetPitmode emits exactly one command frame with code 73 (I)
whose 16-bit parameter is 0 when the uint8_t argument is nonzero and 1 when
it is zero, and it changes no controller state. -/
theorem trampSetPitmode_spec (s : TrampState) (onoff : Nat) (h : onoff < 256) :
    trampSetPitmode s onoff =
      (s, [trampCmdU16 73 (if onoff = 0 then 1 else 0)]) ∧
    (trampCmdU16 73 (if onoff = 0 then 1 else 0)).getD 2 0 +
      256 * (trampCmdU16 73 (if onoff = 0 then 1 else 0)).getD 3 0 =
      (if onoff = 0 then 1 else 0) := by
  have hm : onoff % 256 = onoff := Nat.mod_eq_of_lt h
  by_cases h0 : onoff = 0 <;>
    simp [trampSetPitmode, hm, h0, trampCmdU16, trampChecksum, List.replicate]

/-- C9 witness: pitmode on (argument 1) emits the code-73 frame with
parameter 0 and leaves the initial state unchanged. -/
theorem trampSetPitmode_spec_witness :
    trampSetPitmode trampInitialState 1 =
      (trampInitialState, [trampCmdU16 73 (if (1 : Nat) = 0 then 1 else 0)]) ∧
    (trampCmdU16 73 (if (1 : Nat) = 0 then 1 else 0)).getD 2 0 +
      256 * (trampCmdU16 73 (if (1 : Nat) = 0 then 1 else 0)).getD 3 0 =
      (if (1 : Nat) = 0 then 1 else 0) :=
  trampSetPitmode_spec trampInitialState 1 (by decide)

/-- C10: trampSetBandChan indexes the external table at row band-1 and
column chan-1 in uint8_t arithmetic with no bounds check; for 1 ≤ band ≤ 5
and 1 ≤ chan ≤ 8 both indices land in the 5 x 8 table, while band = 0 or
chan = 0 wraps to index 255, out of range. -/
theorem trampSetBandChan_bounds (tbl : Nat → Nat → Nat) (s : TrampState)
    (band chan : Nat) (h1 : 1 ≤ band) (h2 : band ≤ 5) (h3 : 1 ≤ chan)
    (h4 : chan ≤ 8) :
    (trampSetBandChan tbl s band chan).isSome = true ∧
    trampSetBandChan tbl s 0 chan = none ∧
    trampSetBandChan tbl s band 0 = none := by
  have hb : (band + 255) % 256 = band - 1 := by omega
  have hc : (chan + 255) % 256 = chan - 1 := by omega
  refine ⟨?_, ?_, ?_⟩ <;>
    simp only [trampSetBandChan, vtx58FreqTableGet, hb, hc]
  · rw [if_pos ⟨by omega, by omega⟩]
    rfl
  · rw [if_neg (by omega : ¬((0 + 255) % 256 < 5 ∧ chan - 1 < 8))]
  · rw [if_neg (by omega : ¬(band - 1 < 5 ∧ (0 + 255) % 256 < 8))]

/-- C10 witness: band 3, channel 4 is in range; band 0 and channel 0 hit the
out-of-range branch. -/
theorem trampSetBandChan_bounds_witness :
    (trampSetBandChan tblConst trampInitialState 3 4).isSome = true ∧
    trampSetBandChan tblConst trampInitialState 0 4 = none ∧
    trampSetBandChan tblConst trampInitialState 3 0 = none :=
  trampSetBandChan_bounds tblConst trampInitialState 3 4 (by decide) (by decide)
    (by decide) (by decide)

/-- C7: a code-118 (v) response whose frequency field is zero, and a
code-114 (r) response whose min-freq field is zero, leave every field of the
state unchanged and report no event (code 0). -/
theorem trampHandleResponse_zero_field (f2bc : Nat → Nat × Nat)
    (s : TrampState) :
    (s.respBuffer.getD 1 0 = 118 →
      (s.respBuffer.getD 2 0 ||| (s.respBuffer.getD 3 0 <<< 8)) % 65536 = 0 →
      trampHandleResponse f2bc s = (s, 0)) ∧
    (s.respBuffer.getD 1 0 = 114 →
      (s.respBuffer.getD 2 0 ||| (s.respBuffer.getD 3 0 <<< 8)) % 65536 = 0 →
      trampHandleResponse f2bc s = (s, 0)) := by
  constructor <;> intro hcode hzero <;>
    simp only [List.getD, List.get?_eq_getElem?] at hcode hzero <;>
    simp [trampHandleResponse, List.getD, List.get?_eq_getElem?, hcode, hzero]

/-- C7 witness: concrete validated v and r frames with zero payload fields
produce no state change and no event. -/
theorem trampHandleResponse_zero_field_witness :
    trampHandleResponse f2bcZero exVZero = (exVZero, 0) ∧
    trampHandleResponse f2bcZero exRZero = (exRZero, 0) :=
  ⟨(trampHandleResponse_zero_field f2bcZero exVZero).1 (by decide) (by decide),
   (trampHandleResponse_zero_field f2bcZero exRZero).2 (by decide) (by decide)⟩

/-- C1 counterexample: with the receiver five bytes into a partial frame,
emitting a set-frequency command leaves the partial frame exactly as it was
(state data, position 5), not reset to waitLen with position 0 as the claim
requires for every command-sending operation. -/
theorem trampSendFreq_no_reset_cex :
    (trampSendFreq exMidFrame 5880).1.receiveState = ReceiveState.data ∧
    (trampSendFreq exMidFrame 5880).1.receivePos = 5 := by
  decide

/-- C1 amended: only the query operations (trampQuery, used for the 114/118/115
queries) reset the in-progress partial frame before emitting their command;
the direct send operations (set-frequency 70, set-power 80, pitmode 73)
leave the receiver state untouched. -/
theorem trampCommand_receiver_reset (s : TrampState)
    (cmd freq level onoff : Nat) :
    ((trampQuery s cmd).1.receiveState = ReceiveState.waitLen ∧
     (trampQuery s cmd).1.receivePos = 0) ∧
    (trampSendFreq s freq).1 = s ∧
    (trampSendRFPower s level).1 = s ∧
    (trampSetPitmode s onoff).1 = s := by
  exact ⟨⟨rfl, rfl⟩, rfl, rfl, rfl⟩

/-- C2: a tick in setFreqPw with no pending input bytes compares desired to
observed configuration, frequency first: a frequency mismatch sends exactly
the one set-frequency frame (code 70, parameter the desired frequency) and
moves to checkFreqPw; otherwise a power mismatch sends exactly the one
set-power frame (code 80, parameter the desired power) and moves to
checkFreqPw; when both match, nothing is sent and the status becomes online. -/
theorem trampProcess_setFreqPw_spec (f2bc : Nat → Nat × Nat) (s : TrampState)
    (t : Nat) (h : s.status = TrampStatus.setFreqPw) :
    (s.confFreq ≠ s.curFreq →
      trampProcess f2bc s t [] =
        ({ s with status := TrampStatus.checkFreqPw
                  lastQueryTimeUs := (t + 300000) % 4294967296 },
         [trampCmdU16 70 (s.confFreq % 65536)], [])) ∧
    (s.confFreq = s.curFreq → s.confPower ≠ s.curConfigPower →
      trampProcess f2bc s t [] =
        ({ s with status := TrampStatus.checkFreqPw
                  lastQueryTimeUs := (t + 300000) % 4294967296 },
         [trampCmdU16 80 (s.confPower % 65536)], [])) ∧
    (s.confFreq = s.curFreq → s.confPower = s.curConfigPower →
      trampProcess f2bc s t [] = ({ s with status := TrampStatus.online }, [], [])) := by
  rw [trampProcess_set_branch f2bc s t h]
  refine ⟨fun hf => ?_, fun hf hp => ?_, fun hf hp => ?_⟩
  · simp [hf]
  · simp [hf, hp]
  · simp [hf, hp]

/-- C2 witness: from the concrete setFreqPw state with observed frequency
5800 and desired 5880, a tick at time 5 sends the code-70 frame and moves to
checkFreqPw. -/
theorem trampProcess_setFreqPw_spec_witness :
    trampProcess f2bcZero exSetState 5 [] =
      ({ exSetState with status := TrampStatus.checkFreqPw
                         lastQueryTimeUs := (5 + 300000) % 4294967296 },
       [trampCmdU16 70 (exSetState.confFreq % 65536)], []) :=
  (trampProcess_setFreqPw_spec f2bcZero exSetState 5 (by decide)).1 (by decide)

/-- C3 counterexample: from the reset receiver, feeding a structurally valid
code-115 frame followed by one extra byte makes the receive call return with
that byte still buffered, so a single call does not consume all currently
available bytes. -/
theorem trampReceive_leftover_cex :
    (trampReceive f2bcZero trampInitialState (exFrameS ++ [7])).2.2 = [7] ∧
    (trampReceive f2bcZero trampInitialState (exFrameS ++ [7])).2.2 ≠ [] := by
  decide

/-- C3 amended: a single receive call either consumes all currently
available bytes, or it returns early because a 16-byte candidate frame
passed the checksum and terminator check, in which case at least one byte
was consumed, the receiver was reset (waitLen, position 0), and the unread
bytes stay buffered for the next call; receiver state is carried in the
state value across calls either way. -/
theorem trampReceive_consumes_or_completes (f2bc : Nat → Nat × Nat)
    (avail : List Nat) (s : TrampState) :
    (trampReceive f2bc s avail).2.2 = [] ∨
    ((trampReceive f2bc s avail).1.receiveState = ReceiveState.waitLen ∧
     (trampReceive f2bc s avail).1.receivePos = 0 ∧
     (trampReceive f2bc s avail).2.2.length < avail.length) := by
  unfold trampReceive
  induction avail generalizing s with
  | nil => exact Or.inl rfl
  | cons b rest ih =>
    cases hrs : s.receiveState with
    | waitLen =>
      simp only [trampReceiveLoop, hrs, List.length_cons]
      split
      · exact (ih _).elim Or.inl
          (fun h => Or.inr ⟨h.1, h.2.1, Nat.lt_succ_of_lt h.2.2⟩)
      · exact (ih _).elim Or.inl
          (fun h => Or.inr ⟨h.1, h.2.1, Nat.lt_succ_of_lt h.2.2⟩)
    | waitCode =>
      simp only [trampReceiveLoop, hrs, List.length_cons]
      split
      · exact (ih _).elim Or.inl
          (fun h => Or.inr ⟨h.1, h.2.1, Nat.lt_succ_of_lt h.2.2⟩)
      · exact (ih _).elim Or.inl
          (fun h => Or.inr ⟨h.1, h.2.1, Nat.lt_succ_of_lt h.2.2⟩)
    | data =>
      simp only [trampReceiveLoop, hrs, List.length_cons]
      split
      · split
        · exact Or.inr ⟨(trampHandleResponse_receiver f2bc _).1.trans rfl,
            (trampHandleResponse_receiver f2bc _).2.trans rfl,
            Nat.lt_succ_self _⟩
        · exact (ih _).elim Or.inl
            (fun h => Or.inr ⟨h.1, h.2.1, Nat.lt_succ_of_lt h.2.2⟩)
      · exact (ih _).elim Or.inl
          (fun h => Or.inr ⟨h.1, h.2.1, Nat.lt_succ_of_lt h.2.2⟩)

/-- C4 counterexample: from the concrete setFreqPw state, the tick at
1000000 sends the set-frequency command and enters checkFreqPw, yet the tick
at 1300000 — exactly 300 ms later, which the claim says is the earliest
time a status query can be sent and is sent — emits nothing. -/
theorem trampProcess_300ms_cex :
    (trampProcess f2bcZero exSetState 1000000 []).1.status =
      TrampStatus.checkFreqPw ∧
    (trampProcess f2bcZero (trampProcess f2bcZero exSetState 1000000 []).1
      1300000 []).2.1 = [] := by
  decide

/-- C4 amended: after a command-sending setFreqPw tick at time t the next
query time is pushed to t + 300000 us, and checkFreqPw only queries when
strictly more than 200000 us have elapsed since then; so no status query is
emitted at any tick up to and including t + 500000 us, and the code-118
status query is emitted at a tick at t + 500001 us. -/
theorem trampProcess_checkFreqPw_deadline (f2bc : Nat → Nat × Nat)
    (s : TrampState) (t u : Nat) (hs : s.status = TrampStatus.setFreqPw)
    (hcmd : ¬(s.confFreq = s.curFreq ∧ s.confPower = s.curConfigPower))
    (hw : t + 500001 < 4294967296) (htu : t ≤ u) :
    (trampProcess f2bc s t []).1.status = TrampStatus.checkFreqPw ∧
    (u ≤ t + 500000 →
      (trampProcess f2bc (trampProcess f2bc s t []).1 u []).2.1 = []) ∧
    (u = t + 500001 →
      (trampProcess f2bc (trampProcess f2bc s t []).1 u []).2.1 =
        [trampCmdU16 118 0]) := by
  have h1 : (trampProcess f2bc s t []).1.status = TrampStatus.checkFreqPw ∧
      (trampProcess f2bc s t []).1.lastQueryTimeUs = t + 300000 := by
    rw [trampProcess_set_branch f2bc s t hs]
    by_cases hf : s.confFreq = s.curFreq
    · have hp : s.confPower ≠ s.curConfigPower := fun hpp => hcmd ⟨hf, hpp⟩
      refine ⟨by simp [hf, hp], ?_⟩
      simp [hf, hp]
      omega
    · refine ⟨by simp [hf], ?_⟩
      simp [hf]
      omega
  refine ⟨h1.1, ?_, ?_⟩
  · intro hu
    rw [trampProcess_check_branch f2bc _ u h1.1, h1.2]
    rw [if_neg ?hneg]
    case hneg =>
      rcases Nat.lt_or_ge u (t + 300000) with hlt | hge
      · rw [cmp32_eval_lt u (t + 300000) hlt (by omega) (by omega)]
        push_cast
        omega
      · rw [cmp32_eval_ge u (t + 300000) hge (by omega) (by omega)]
        push_cast
        omega
  · intro hu
    subst hu
    rw [trampProcess_check_branch f2bc _ (t + 500001) h1.1, h1.2]
    rw [if_pos ?hpos]
    case hpos =>
      rw [cmp32_eval_ge (t + 500001) (t + 300000) (by omega) (by omega)
        (by omega)]
      push_cast
      omega

/-- C4 witness: with t = 0, the set-frequency command is sent at the first
tick; the tick at 500000 us emits nothing while the tick at 500001 us emits
the status query. -/
theorem trampProcess_checkFreqPw_deadline_witness :
    (trampProcess f2bcZero exSetState 0 []).1.status =
      TrampStatus.checkFreqPw ∧
    (trampProcess f2bcZero (trampProcess f2bcZero exSetState 0 []).1
      500000 []).2.1 = [] ∧
    (trampProcess f2bcZero (trampProcess f2bcZero exSetState 0 []).1
      500001 []).2.1 = [trampCmdU16 118 0] :=
  ⟨(trampProcess_checkFreqPw_deadline f2bcZero exSetState 0 500000 (by decide)
      (by decide) (by decide) (by decide)).1,
   (trampProcess_checkFreqPw_deadline f2bcZero exSetState 0 500000 (by decide)
      (by decide) (by decide) (by decide)).2.1 (by decide),
   (trampProcess_checkFreqPw_deadline f2bcZero exSetState 0 500001 (by decide)
      (by decide) (by decide) (by decide)).2.2 (by decide)⟩

theorem trampReceiveLoop_recvInv (f2bc : Nat → Nat × Nat)
    (avail : List Nat) : ∀ s : TrampState, recvInv s →
    recvInv (trampReceiveLoop f2bc avail s).1 := by
  induction avail with
  | nil => exact fun s h => h
  | cons b rest ih =>
    intro s h
    rcases h with ⟨h1, h2⟩ | ⟨h1, h2⟩ | ⟨h1, h2, h3⟩
    · simp only [trampReceiveLoop, h1]
      split
      · exact ih _ (Or.inr (Or.inl ⟨rfl, by simp [h2]⟩))
      · exact ih _ (Or.inl ⟨by simp [h1], rfl⟩)
    · simp only [trampReceiveLoop, h1]
      split
      · exact ih _ (Or.inr (Or.inr ⟨rfl, by simp [h2], by simp [h2]⟩))
      · exact ih _ (Or.inl ⟨rfl, rfl⟩)
    · simp only [trampReceiveLoop, h1]
      split
      · split
        · exact Or.inl ⟨(trampHandleResponse_receiver f2bc _).1.trans rfl,
            (trampHandleResponse_receiver f2bc _).2.trans rfl⟩
        · exact ih _ (Or.inl ⟨rfl, rfl⟩)
      · rename_i hne
        refine ih _ (Or.inr (Or.inr ⟨rfl, by simp; omega, ?_⟩))
        simp only [TrampState.receivePos] at hne ⊢
        omega

/-- C8: starting from any state satisfying the receiver invariant (as the
reset receiver does), after any prefix of the incoming byte stream the
receiver invariant still holds and the position counter is at most 15, so
each incoming byte is stored inside the 16-byte response buffer and the
counter never exceeds 16. -/
theorem trampReceive_write_in_bounds (f2bc : Nat → Nat × Nat)
    (avail : List Nat) (s : TrampState) (h : recvInv s) (k : Nat) :
    recvInv (trampReceiveLoop f2bc (avail.take k) s).1 ∧
    (trampReceiveLoop f2bc (avail.take k) s).1.receivePos ≤ 15 := by
  have hi := trampReceiveLoop_recvInv f2bc (avail.take k) s h
  refine ⟨hi, ?_⟩
  rcases hi with ⟨_, h2⟩ | ⟨_, h2⟩ | ⟨_, h2, h3⟩ <;> omega

/-- C8 witness: from the initial state a three-byte prefix of a valid frame
keeps the invariant and the position bound. -/
theorem trampReceive_write_in_bounds_witness :
    recvInv (trampReceiveLoop f2bcZero (exFrameS.take 3) trampInitialState).1 ∧
    (trampReceiveLoop f2bcZero (exFrameS.take 3) trampInitialState).1.receivePos
      ≤ 15 :=
  trampReceive_write_in_bounds f2bcZero exFrameS trampInitialState
    (Or.inl ⟨rfl, rfl⟩) 3

end Tramp
